import Mathlib

/-!
# Verification of the wind-observation store and map renderer (`src/wind_app.py`)

Shallow embedding of the data/config store and the `draw_map` renderer of
the wind reporting application.  Persisted JSON files are modelled by a
`FileState` that distinguishes an absent file, an unreadable file, a file
whose content fails to parse, and a successfully parsed value.  Write
failures (disk full, permissions) are modelled by a `writeOk : Bool`
parameter; an uncaught Python exception is modelled by `Except.error`.
-/

namespace WindApp

/-- One value of the observations mapping, as stored in `wind_data_v10.json`.
`save_point_data` writes the JSON object
`{"clock": clock_dir, "level": level_name, "updated": time.time()}`;
a field is `none` when the key is absent from the object (possible for
hand-edited or legacy files read back by `draw_map`).  `clock` is typed as
an integer (the app's clock-hour buttons store ints), `level` as a string,
and the informational `updated` timestamp as a natural number. -/
structure WindRec where
  clock : Option Int
  level : Option String
  updated : Option Nat
  deriving Repr, DecidableEq

/-- The parsed contents of the observations file: a JSON object mapping
string-encoded positions to records, in insertion order (Python dict). -/
abbrev Snapshot := List (String × WindRec)

/-- Python `dict` lookup / `dict.get` on an association list (keys unique
in a parsed JSON object; first match returned). -/
def alookup {α : Type} (k : String) : List (String × α) → Option α
  | [] => none
  | (k', v) :: rest => if k' = k then some v else alookup k rest

/-- Python `d[k] = v`: replace the value at `k` in place if present,
otherwise append the new binding at the end. -/
def insertKey {α : Type} (k : String) (v : α) : List (String × α) → List (String × α)
  | [] => [(k, v)]
  | (k', v') :: rest =>
    if k' = k then (k, v) :: rest else (k', v') :: insertKey k v rest

/-- Python `del d[k]` (callers check membership first): remove the binding. -/
def eraseKey {α : Type} (k : String) : List (String × α) → List (String × α)
  | [] => []
  | (k', v') :: rest =>
    if k' = k then eraseKey k rest else (k', v') :: eraseKey k rest

/-- Python `k in d`. -/
def hasKey {α : Type} (k : String) (l : List (String × α)) : Bool :=
  (alookup k l).isSome

/-- State of one backing file on disk.  `absent`: `os.path.exists` is false.
`unreadable`: `open` raises (permissions).  `malformed`: `open` succeeds but
`json.load` raises on the content.  `good v`: the content parses to `v`. -/
inductive FileState (α : Type) where
  | absent
  | unreadable
  | malformed
  | good (v : α)
  deriving Repr, DecidableEq

/-- `load_all_data` (src/wind_app.py lines 55-60): empty dict when the file
is missing, empty dict when opening or parsing raises, else the parsed dict. -/
def load_all_data : FileState Snapshot → Snapshot
  | .absent => []
  | .unreadable => []
  | .malformed => []
  | .good d => d

/-- `load_config` (lines 35-43): the fixed default `{"max_distance": 600}`
when the file is missing or opening/parsing raises, else the parsed value
(modelled by the stored `max_distance` integer). -/
def load_config : FileState Int → Int
  | .absent => 600
  | .unreadable => 600
  | .malformed => 600
  | .good m => m

/-- `save_config` (lines 45-52): writes `{"max_distance": max_distance}`;
a write failure is caught and shown via `st.error` (the returned `Bool`),
never propagated.  Result: new config-file state and whether a user-visible
error notice was emitted. -/
def save_config (fs : FileState Int) (writeOk : Bool) (max_distance : Int) :
    Except Unit (FileState Int × Bool) :=
  if writeOk then .ok (.good max_distance, false) else .ok (fs, true)

/-- `save_point_data` (lines 62-74): load the full snapshot, set the entry
at `str(distance_m)` to a freshly stamped record, and write the whole
snapshot back.  The write is inside `try/except`, so a write failure is
caught and surfaced via `st.error` (the returned `Bool`), never propagated. -/
def save_point_data (fs : FileState Snapshot) (writeOk : Bool)
    (distance_m clock_dir : Int) (level_name : String) (now : Nat) :
    Except Unit (FileState Snapshot × Bool) :=
  let current_data := load_all_data fs
  let dist_key := toString distance_m
  let updated := insertKey dist_key ⟨some clock_dir, some level_name, some now⟩ current_data
  if writeOk then .ok (.good updated, false) else .ok (fs, true)

/-- `delete_point_data` (lines 76-82): load the snapshot; if the key is
present, delete it and write the snapshot back.  The write is NOT inside a
`try/except`, so a write failure propagates (`Except.error`).  When the key
is absent nothing is written and nothing can fail. -/
def delete_point_data (fs : FileState Snapshot) (writeOk : Bool)
    (distance_m : Int) : Except Unit (FileState Snapshot × Bool) :=
  let current_data := load_all_data fs
  let dist_key := toString distance_m
  if hasKey dist_key current_data then
    if writeOk then .ok (.good (eraseKey dist_key current_data), false)
    else .error ()
  else .ok (fs, false)

/-- Modelled from the spec: the repository source has no `clear_all`
operation (only the spec's Position Store contract declares it).
Per the spec, `clear_all()` "replaces the snapshot with an empty mapping". -/
def clear_all (_fs : FileState Snapshot) : FileState Snapshot :=
  .good []

/-! ## The map renderer `draw_map` (lines 87-162)

Only the data-dependent per-entry loop (lines 120-158) is modelled; the
static background (runway rectangles, distance ticks) does not depend on
the snapshot.  Each loop iteration emits matplotlib artists; an exception
inside the `try` (non-integer key, missing `clock` field) hits the bare
`except: continue` and the entry contributes nothing. -/

/-- One row of the `WIND_LEVELS` table (line 22-28).  The `val` entries
`0.0, 2.0, 4.0, 6.0, 9.0` are all integral, so they are carried as `Int`
exactly. -/
structure LevelInfo where
  val : Int
  color : String
  label : String
  deriving Repr, DecidableEq

/-- The `WIND_LEVELS` table, in source order. -/
def WIND_LEVELS : List (String × LevelInfo) :=
  [("無風", ⟨0, "gray", "CALM"⟩),
   ("微風", ⟨2, "#2196F3", "LIGHT"⟩),
   ("弱風", ⟨4, "#2196F3", "WEAK"⟩),
   ("中風", ⟨6, "#FFC107", "MID"⟩),
   ("強風", ⟨9, "#FF5252", "HIGH"⟩)]

/-- Start codepoints of the Unicode decimal-digit (`Nd`) ranges accepted by
Python's `int()` on strings: each range is ten consecutive codepoints with
digit values `0..9` (CPython 3.11 Unicode database). -/
def pyDigitRangeStarts : List Nat :=
  [0x30, 0x660, 0x6F0, 0x7C0, 0x966, 0x9E6, 0xA66, 0xAE6, 0xB66, 0xBE6,
   0xC66, 0xCE6, 0xD66, 0xDE6, 0xE50, 0xED0, 0xF20, 0x1040, 0x1090, 0x17E0,
   0x1810, 0x1946, 0x19D0, 0x1A80, 0x1A90, 0x1B50, 0x1BB0, 0x1C40, 0x1C50,
   0xA620, 0xA8D0, 0xA900, 0xA9D0, 0xA9F0, 0xAA50, 0xABF0, 0xFF10, 0x104A0,
   0x10D30, 0x11066, 0x110F0, 0x11136, 0x111D0, 0x112F0, 0x11450, 0x114D0,
   0x11650, 0x116C0, 0x11730, 0x118E0, 0x11950, 0x11C50, 0x11D50, 0x11DA0,
   0x16A60, 0x16AC0, 0x16B50, 0x1D7CE, 0x1D7D8, 0x1D7E2, 0x1D7EC, 0x1D7F6,
   0x1E140, 0x1E2F0, 0x1E950, 0x1FBF0]

/-- Digit value of a character under Python `int()`: any Unicode decimal
digit (ASCII `0-9`, Arabic-Indic, fullwidth, mathematical alphanumeric,
...), not just ASCII. -/
def pyDigitVal (c : Char) : Option Nat :=
  match pyDigitRangeStarts.find?
      (fun s => decide (s ≤ c.toNat) && decide (c.toNat < s + 10)) with
  | some s => some (c.toNat - s)
  | none => none

/-- The codepoints Python `int()` strips from both ends of its string
argument (determined empirically against CPython 3.11: ASCII whitespace,
NEL, NBSP, and the Unicode space/line/paragraph separators). -/
def pyIntWhitespaceCodes : List Nat :=
  [0x9, 0xA, 0xB, 0xC, 0xD, 0x20, 0x85, 0xA0, 0x1680,
   0x2000, 0x2001, 0x2002, 0x2003, 0x2004, 0x2005, 0x2006, 0x2007,
   0x2008, 0x2009, 0x200A, 0x2028, 0x2029, 0x202F, 0x205F, 0x3000]

/-- Whether `int()` strips `c` as surrounding whitespace. -/
def pyIntWhitespace (c : Char) : Bool :=
  pyIntWhitespaceCodes.contains c.toNat

/-- Digit run after the optional sign: Python allows a single `_` only
between two digits (`1_0_0` parses, `_5`, `5_`, `5__5` raise). -/
def digitsLoop : Nat → List Char → Option Nat
  | acc, [] => some acc
  | acc, '_' :: rest =>
    match rest with
    | [] => none
    | c :: rest' =>
      match pyDigitVal c with
      | some v => digitsLoop (acc * 10 + v) rest'
      | none => none
  | acc, c :: rest =>
    match pyDigitVal c with
    | some v => digitsLoop (acc * 10 + v) rest
    | none => none

/-- A nonempty underscore-grouped digit run, starting with a digit. -/
def parseDigitsU : List Char → Option Nat
  | [] => none
  | c :: rest =>
    match pyDigitVal c with
    | some v => digitsLoop v rest
    | none => none

/-- Python `int(s)` for a string `s`: strip surrounding whitespace, then an
optional ASCII `+`/`-` sign followed by a nonempty run of Unicode decimal
digits with optional `_` grouping; `none` when `int()` would raise
`ValueError`.  Cross-validated character class by character class against
CPython 3.11 (whitespace padding, underscore grouping, and non-ASCII
decimal digits such as `"５"` all parse). -/
def parseIntStr (s : String) : Option Int :=
  let stripped :=
    ((s.data.dropWhile pyIntWhitespace).reverse.dropWhile pyIntWhitespace).reverse
  match stripped with
  | '-' :: rest => (parseDigitsU rest).map (fun n => -(n : Int))
  | '+' :: rest => (parseDigitsU rest).map (fun n => (n : Int))
  | cs => (parseDigitsU cs).map (fun n => (n : Int))

/-- A matplotlib artist emitted by the per-entry loop of `draw_map`:
the black position dot (line 135), the quiver arrow (lines 147-150) with
its draw angle in degrees (the code converts `wind_from_angle + 180` to
radians before taking cos/sin), the bold strength label (lines 152-153),
and the gray text-only "CALM" marker (lines 155-156). -/
inductive MapItem where
  | dot (x y : Int)
  | arrow (x y : Int) (angleDeg : Int) (len : Int) (color : String)
  | label (x y : Int) (text : String)
  | calmMarker (x y : Int)
  deriving Repr, DecidableEq

/-- One iteration of the `for dist_key, item in data.items()` loop of
`draw_map` (lines 120-158).  `int(dist_key)` failing, or `item['clock']`
being absent, raises before anything is drawn and the bare `except`
skips the entry; `item.get('level', "無風")` and
`WIND_LEVELS.get(level_name, WIND_LEVELS["無風"])` substitute the calm
default; out-of-range positions `continue` before the dot is drawn. -/
def drawEntry (max_dist : Int) (dist_key : String) (item : WindRec) :
    List MapItem :=
  match parseIntStr dist_key with
  | none => []
  | some dist_m =>
    match item.clock with
    | none => []
    | some clock =>
      let level_name := item.level.getD "無風"
      let level_info := (alookup level_name WIND_LEVELS).getD ⟨0, "gray", "CALM"⟩
      let speed_val := level_info.val
      if dist_m < 0 ∨ dist_m > max_dist then []
      else
        let x : Int := 50
        let y := dist_m
        if level_name ≠ "無風" ∧ speed_val > 0 then
          let wind_from_angle := 90 - clock * 30
          let base_scale : Int := if max_dist ≤ 600 then 25 else 40
          let arrow_len := base_scale + speed_val * 6
          [.dot x y,
           .arrow x y (wind_from_angle + 180) arrow_len level_info.color,
           .label (x + 20) y level_info.label]
        else
          [.dot x y, .calmMarker (x + 20) y]

/-- The data-dependent part of `draw_map data max_dist`: the artists
emitted by the per-entry loop, in iteration order. -/
def draw_map (data : Snapshot) (max_dist : Int) : List MapItem :=
  data.flatMap (fun kv => drawEntry max_dist kv.1 kv.2)

/-- Arrow draw angles (degrees) among a list of emitted artists. -/
def arrowAngles : List MapItem → List Int
  | [] => []
  | .arrow _ _ a _ _ :: rest => a :: arrowAngles rest
  | _ :: rest => arrowAngles rest

/-- Number of quiver arrows among a list of emitted artists. -/
def arrowCount (l : List MapItem) : Nat :=
  (arrowAngles l).length

/-- Number of "CALM" text markers among a list of emitted artists. -/
def calmCount : List MapItem → Nat
  | [] => 0
  | .calmMarker _ _ :: rest => calmCount rest + 1
  | _ :: rest => calmCount rest

/-! ## Association-list lemmas -/

theorem alookup_insertKey_self {α : Type} (k : String) (v : α) :
    ∀ l : List (String × α), alookup k (insertKey k v l) = some v := by
  intro l
  induction l with
  | nil => simp [insertKey, alookup]
  | cons hd tl ih =>
    by_cases h : hd.1 = k
    · simp [insertKey, h, alookup]
    · simp [insertKey, h, alookup, ih]

theorem alookup_insertKey_ne {α : Type} (k k' : String) (v : α)
    (hne : k' ≠ k) :
    ∀ l : List (String × α), alookup k' (insertKey k v l) = alookup k' l := by
  have hne' : k ≠ k' := Ne.symm hne
  intro l
  induction l with
  | nil => simp [insertKey, alookup, hne']
  | cons hd tl ih =>
    by_cases h : hd.1 = k
    · subst h
      simp [insertKey, alookup, hne']
    · simp [insertKey, h, alookup, ih]

theorem alookup_eraseKey_self {α : Type} (k : String) :
    ∀ l : List (String × α), alookup k (eraseKey k l) = none := by
  intro l
  induction l with
  | nil => simp [eraseKey, alookup]
  | cons hd tl ih =>
    by_cases h : hd.1 = k
    · simp [eraseKey, h, ih]
    · simp [eraseKey, h, alookup, ih]

theorem save_point_data_ok (fs : FileState Snapshot)
    (p c : Int) (lvl : String) (t : Nat) :
    save_point_data fs true p c lvl t =
      .ok (.good (insertKey (toString p) ⟨some c, some lvl, some t⟩
        (load_all_data fs)), false) := by
  simp [save_point_data]

/-- A level found in `WIND_LEVELS` with positive `val` is not the calm
level `"無風"` (whose `val` is `0`). -/
theorem val_pos_ne_calm {lvl : String} {info : LevelInfo}
    (h : alookup lvl WIND_LEVELS = some info) (hv : 0 < info.val) :
    lvl ≠ "無風" := by
  intro heq
  subst heq
  simp [alookup, WIND_LEVELS] at h
  rw [← h] at hv
  simp at hv

/-! ## Claim theorems -/

/-- C1: read-after-write.  For every position `p` with `0 ≤ p ≤ length_m`,
every clock bearing `b` and strength level `s`, `save_point_data(p, b, s)`
(with the write succeeding) followed immediately by `load_all_data()`
yields a mapping containing at key `str(p)` a record whose bearing (`clock`)
is `b` and whose strength (`level`) is `s`. -/
theorem save_then_load_reads_back (fs : FileState Snapshot)
    (length_m p b : Int) (s : String) (t : Nat)
    (_h0 : 0 ≤ p) (_h1 : p ≤ length_m) :
    ∃ st notice, save_point_data fs true p b s t = .ok (st, notice) ∧
      alookup (toString p) (load_all_data st) = some ⟨some b, some s, some t⟩ := by
  refine ⟨_, _, save_point_data_ok fs p b s t, ?_⟩
  simp [load_all_data, alookup_insertKey_self]

theorem save_then_load_reads_back_witness :
    ∃ st notice,
      save_point_data .absent true 200 12 "中風" 7 = .ok (st, notice) ∧
      alookup (toString (200 : Int)) (load_all_data st) =
        some ⟨some 12, some "中風", some 7⟩ :=
  save_then_load_reads_back .absent 600 200 12 "中風" 7 (by decide) (by decide)

/-- C2: single-key-update frame property.  `save_point_data(p, b, s)`
changes only the entry at key `str(p)`: the snapshot a subsequent
`load_all_data()` observes agrees with the prior snapshot at every other
key. -/
theorem save_point_frame (fs : FileState Snapshot) (p b : Int) (s : String)
    (t : Nat) (k : String) (hk : k ≠ toString p) :
    ∃ st notice, save_point_data fs true p b s t = .ok (st, notice) ∧
      alookup k (load_all_data st) = alookup k (load_all_data fs) := by
  refine ⟨_, _, save_point_data_ok fs p b s t, ?_⟩
  simp [load_all_data, alookup_insertKey_ne _ _ _ hk]

theorem save_point_frame_witness :
    ∃ st notice,
      save_point_data (.good [("100", ⟨some 3, some "微風", some 1⟩)])
        true 200 12 "中風" 7 = .ok (st, notice) ∧
      alookup "100" (load_all_data st) =
        alookup "100" (load_all_data
          (.good [("100", ⟨some 3, some "微風", some 1⟩)])) :=
  save_point_frame (.good [("100", ⟨some 3, some "微風", some 1⟩)])
    200 12 "中風" 7 "100" (by decide)

/-- C3: `clear_all` (modelled from the spec; the source has no such
operation) followed by `load_all_data` returns the empty mapping, for every
prior state of the observations file. -/
theorem clear_all_then_load_empty (fs : FileState Snapshot) :
    load_all_data (clear_all fs) = [] := rfl

/-- C4: delete semantics.  For every prior state and position `p` (write
succeeding): after `delete_point_data(p)` the loaded mapping has no key
`str(p)`; when the key is absent `delete_point_data(p)` is a no-op that
raises no error regardless of whether a write would fail (no write is
attempted); hence a second consecutive `delete_point_data(p)` leaves the
store unchanged. -/
theorem delete_point_semantics (fs : FileState Snapshot) (wOk : Bool)
    (p : Int) :
    ∃ st, delete_point_data fs true p = .ok (st, false) ∧
      alookup (toString p) (load_all_data st) = none ∧
      delete_point_data st wOk p = .ok (st, false) ∧
      (alookup (toString p) (load_all_data fs) = none →
        delete_point_data fs wOk p = .ok (fs, false)) := by
  by_cases h : hasKey (toString p) (load_all_data fs)
  · refine ⟨.good (eraseKey (toString p) (load_all_data fs)), ?_, ?_, ?_, ?_⟩
    · simp [delete_point_data, h]
    · simp [load_all_data, alookup_eraseKey_self]
    · simp [delete_point_data, hasKey, load_all_data, alookup_eraseKey_self]
    · intro habs
      simp [hasKey, habs] at h
  · have habs : alookup (toString p) (load_all_data fs) = none := by
      cases halo : alookup (toString p) (load_all_data fs) with
      | none => rfl
      | some v => simp [hasKey, halo] at h
    refine ⟨fs, ?_, habs, ?_, fun _ => ?_⟩ <;>
      simp [delete_point_data, h]

theorem delete_point_semantics_witness :
    ∃ st, delete_point_data
        (.good [("200", ⟨some 12, some "中風", some 7⟩)]) true 200 =
          .ok (st, false) ∧
      alookup (toString (200 : Int)) (load_all_data st) = none ∧
      delete_point_data st false 200 = .ok (st, false) ∧
      (alookup (toString (200 : Int))
          (load_all_data (.good [("200", ⟨some 12, some "中風", some 7⟩)])) =
            none →
        delete_point_data (.good [("200", ⟨some 12, some "中風", some 7⟩)])
          false 200 =
          .ok (.good [("200", ⟨some 12, some "中風", some 7⟩)], false)) :=
  delete_point_semantics (.good [("200", ⟨some 12, some "中風", some 7⟩)])
    false 200

/-- C5: storage-read failures never reach the caller.  For an absent,
unreadable, or malformed (unparseable) backing file, `load_all_data`
returns the empty mapping and `load_config` returns the fixed default
`max_distance = 600`; no error is raised or propagated (both functions are
total and return the fallback). -/
theorem storage_read_failures_recovered :
    load_all_data .absent = [] ∧
    load_all_data .unreadable = [] ∧
    load_all_data .malformed = [] ∧
    load_config .absent = 600 ∧
    load_config .unreadable = 600 ∧
    load_config .malformed = 600 :=
  ⟨rfl, rfl, rfl, rfl, rfl, rfl⟩

/-- C6 counterexample: the claim "a persistence-layer error during a write
in `delete_point` never propagates" is false.  With the key `"100"`
present and the write failing, `delete_point_data` raises: its
`json.dump` call (lines 81-82) is not inside any `try/except`. -/
theorem delete_write_failure_propagates_cex :
    delete_point_data (.good [("100", ⟨some 12, some "中風", some 0⟩)])
      false 100 = .error () := by
  rfl

/-- C6 amended: a write failure in `save_point_data` or `save_config` is
surfaced as a user-visible notice (`st.error`) and otherwise swallowed —
they always return normally, with the notice flag set exactly when the
write failed.  `delete_point_data`, by contrast, does not guard its write:
when the key is present and the write fails, the exception propagates to
the caller (when the key is absent no write occurs, so no error can
arise). -/
theorem write_failure_handling (fs : FileState Snapshot)
    (cfs : FileState Int) (wOk : Bool) (p b m : Int) (s : String) (t : Nat) :
    (∃ st, save_point_data fs wOk p b s t = .ok (st, !wOk)) ∧
    (∃ st, save_config cfs wOk m = .ok (st, !wOk)) ∧
    (hasKey (toString p) (load_all_data fs) = true →
      delete_point_data fs false p = .error ()) := by
  refine ⟨?_, ?_, fun h => ?_⟩
  · cases wOk with
    | false => exact ⟨fs, by simp [save_point_data]⟩
    | true => exact ⟨_, save_point_data_ok fs p b s t⟩
  · cases wOk with
    | false => exact ⟨cfs, by simp [save_config]⟩
    | true => exact ⟨.good m, by simp [save_config]⟩
  · simp [delete_point_data, h]

theorem write_failure_handling_witness :
    (∃ st, save_point_data (.good [("100", ⟨some 12, some "中風", some 0⟩)])
      false 100 12 "強風" 3 = .ok (st, !false)) ∧
    (∃ st, save_config .absent false 300 = .ok (st, !false)) ∧
    (hasKey (toString (100 : Int))
        (load_all_data (.good [("100", ⟨some 12, some "中風", some 0⟩)])) =
          true →
      delete_point_data (.good [("100", ⟨some 12, some "中風", some 0⟩)])
        false 100 = .error ()) :=
  write_failure_handling (.good [("100", ⟨some 12, some "中風", some 0⟩)])
    .absent false 100 12 300 "強風" 3

/-- C7: range filtering.  A record whose position parses to `d` with
`d < 0` or `d > max_dist` contributes nothing to the drawing — no arrow,
no calm marker, no position dot (`continue` at line 131 fires before any
artist for the entry is drawn) — even though the record is present in the
raw snapshot handed to `draw_map`. -/
theorem out_of_range_entry_emits_nothing (max_dist d : Int) (k : String)
    (item : WindRec) (hk : parseIntStr k = some d)
    (hrange : d < 0 ∨ d > max_dist) :
    drawEntry max_dist k item = [] ∧ draw_map [(k, item)] max_dist = [] := by
  have hentry : drawEntry max_dist k item = [] := by
    unfold drawEntry
    rw [hk]
    cases item.clock with
    | none => rfl
    | some c => simp [hrange]
  exact ⟨hentry, by simp [draw_map, hentry]⟩

theorem out_of_range_entry_emits_nothing_witness :
    drawEntry 600 "700" ⟨some 12, some "強風", some 0⟩ = [] ∧
      draw_map [("700", ⟨some 12, some "強風", some 0⟩)] 600 = [] :=
  out_of_range_entry_emits_nothing 600 700 "700"
    ⟨some 12, some "強風", some 0⟩ (by rfl) (by decide)

/-- C8: the drawn arrow direction is the reciprocal of the reported
bearing.  For an in-range record with a nonzero strength level, the single
emitted arrow's draw angle is `wind_from_angle + 180` where
`wind_from_angle = 90 - clock * 30` is the "from" angle of the clock
bearing in matplotlib's math convention (clock 12 maps to the reference
direction `90 - 360 ≡ 90°`, each clock hour advancing `30°` clockwise,
i.e. `-30°` in the counterclockwise-positive convention).  In particular
clock 12 yields draw angle `-90 ≡ 270°`, the opposite (south) direction. -/
theorem arrow_angle_is_reciprocal (max_dist d c : Int) (k s : String)
    (item : WindRec) (info : LevelInfo)
    (hk : parseIntStr k = some d) (hc : item.clock = some c)
    (hl : item.level = some s)
    (hinfo : alookup s WIND_LEVELS = some info) (hv : 0 < info.val)
    (h0 : 0 ≤ d) (h1 : d ≤ max_dist) :
    arrowAngles (drawEntry max_dist k item) = [90 - c * 30 + 180] := by
  have hne : s ≠ "無風" := val_pos_ne_calm hinfo hv
  unfold drawEntry
  rw [hk, hc, hl]
  simp only [Option.getD_some, hinfo]
  rw [if_neg (by omega)]
  rw [if_pos ⟨hne, hv⟩]
  simp [arrowAngles]

theorem arrow_angle_is_reciprocal_witness :
    arrowAngles (drawEntry 600 "200" ⟨some 12, some "中風", some 0⟩) =
      [90 - 12 * 30 + 180] :=
  arrow_angle_is_reciprocal 600 200 12 "200" "中風"
    ⟨some 12, some "中風", some 0⟩ ⟨6, "#FFC107", "MID"⟩
    (by rfl) rfl rfl (by rfl) (by decide) (by decide) (by decide)

/-- C9: calm suppression.  For an in-range record whose strength level is
found in `WIND_LEVELS`: if its value is the calm/zero level the entry
emits no arrow and exactly one "CALM" text marker; if its value is nonzero
the entry emits exactly one arrow and no calm marker. -/
theorem calm_suppression (max_dist d c : Int) (k s : String)
    (item : WindRec) (info : LevelInfo)
    (hk : parseIntStr k = some d) (hc : item.clock = some c)
    (hl : item.level = some s)
    (hinfo : alookup s WIND_LEVELS = some info)
    (h0 : 0 ≤ d) (h1 : d ≤ max_dist) :
    (info.val = 0 → arrowCount (drawEntry max_dist k item) = 0 ∧
      calmCount (drawEntry max_dist k item) = 1) ∧
    (0 < info.val → arrowCount (drawEntry max_dist k item) = 1 ∧
      calmCount (drawEntry max_dist k item) = 0) := by
  constructor
  · intro hzero
    have hbranch : ¬(s ≠ "無風" ∧ info.val > 0) := by
      rintro ⟨-, hpos⟩; omega
    unfold drawEntry
    rw [hk, hc, hl]
    simp only [Option.getD_some, hinfo]
    rw [if_neg (by omega), if_neg hbranch]
    simp [arrowCount, arrowAngles, calmCount]
  · intro hv
    have hne : s ≠ "無風" := val_pos_ne_calm hinfo hv
    unfold drawEntry
    rw [hk, hc, hl]
    simp only [Option.getD_some, hinfo]
    rw [if_neg (by omega), if_pos ⟨hne, hv⟩]
    simp [arrowCount, arrowAngles, calmCount]

theorem calm_suppression_witness :
    arrowCount (drawEntry 600 "400" ⟨some 6, some "無風", some 0⟩) = 0 ∧
      calmCount (drawEntry 600 "400" ⟨some 6, some "無風", some 0⟩) = 1 :=
  (calm_suppression 600 400 6 "400" "無風"
      ⟨some 6, some "無風", some 0⟩ ⟨0, "gray", "CALM"⟩
      (by rfl) rfl rfl (by rfl) (by decide) (by decide)).1 rfl

/-- C10 counterexample: an entry whose key is not a decimal integer string
is NOT always silently skipped.  Python's `int()` strips surrounding
whitespace, so the key `" 5"` — whitespace-padded, not a decimal integer
string — parses as position 5 and the entry is fully rendered (dot, arrow
and strength label), refuting the claimed skip at this concrete input. -/
theorem whitespace_key_rendered_cex :
    drawEntry 600 " 5" ⟨some 12, some "中風", some 0⟩ =
      [.dot 50 5, .arrow 50 5 (90 - 12 * 30 + 180) 61 "#FFC107",
       .label 70 5 "MID"] := by
  rfl

/-- C10 amended: the renderer is total over arbitrary snapshot contents
(every case of `drawEntry` is defined; the bare `except: continue` at
line 158 catches the in-loop exceptions).  An entry whose key Python's
`int()` rejects is silently skipped, as is one whose value lacks the
`clock` field (no artists, no default bearing); an in-range entry whose
strength level is not in `WIND_LEVELS` falls back to the calm default,
drawing only the position dot and a "CALM" marker; and a key `int()`
accepts beyond plain decimal strings (whitespace-padded,
underscore-grouped, non-ASCII decimal digits) renders exactly like any
other key parsing to the same position. -/
theorem renderer_junk_handling (max_dist : Int) (k : String)
    (item : WindRec) :
    (parseIntStr k = none → drawEntry max_dist k item = []) ∧
    (item.clock = none → drawEntry max_dist k item = []) ∧
    (∀ d c s, parseIntStr k = some d → item.clock = some c →
      item.level = some s → alookup s WIND_LEVELS = none →
      0 ≤ d → d ≤ max_dist →
      drawEntry max_dist k item = [.dot 50 d, .calmMarker 70 d]) ∧
    (∀ k' d, parseIntStr k = some d → parseIntStr k' = some d →
      drawEntry max_dist k item = drawEntry max_dist k' item) := by
  refine ⟨fun hk => ?_, fun hc => ?_, fun d c s hk hc hl hs h0 h1 => ?_,
    fun k' d hk hk' => ?_⟩
  · unfold drawEntry
    rw [hk]
  · unfold drawEntry
    cases hpk : parseIntStr k with
    | none => rfl
    | some d => rw [hc]
  · unfold drawEntry
    rw [hk, hc, hl]
    simp only [Option.getD_some, hs]
    rw [if_neg (by omega)]
    rw [if_neg (by rintro ⟨-, hpos⟩; simp [Option.getD] at hpos)]
    norm_num
  · unfold drawEntry
    rw [hk, hk']

theorem renderer_junk_handling_witness :
    (drawEntry 600 "2a" ⟨some 12, some "中風", some 0⟩ = []) ∧
    (drawEntry 600 "100" ⟨none, some "中風", some 0⟩ = []) ∧
    (drawEntry 600 "100" ⟨some 3, some "台風", some 0⟩ =
      [.dot 50 100, .calmMarker 70 100]) ∧
    (drawEntry 600 "５_０" ⟨some 12, some "中風", some 0⟩ =
      drawEntry 600 "50" ⟨some 12, some "中風", some 0⟩) :=
  ⟨(renderer_junk_handling 600 "2a" ⟨some 12, some "中風", some 0⟩).1 (by rfl),
   (renderer_junk_handling 600 "100" ⟨none, some "中風", some 0⟩).2.1 rfl,
   (renderer_junk_handling 600 "100" ⟨some 3, some "台風", some 0⟩).2.2.1
     100 3 "台風" (by rfl) rfl rfl (by rfl) (by decide) (by decide),
   (renderer_junk_handling 600 "５_０" ⟨some 12, some "中風", some 0⟩).2.2.2
     "50" 50 (by rfl) (by rfl)⟩

end WindApp
